import Mathlib

/-!
Shallow embedding of the hotkey / push-to-talk / tray / overlay components of
the `earhole` speech-to-text utility (files `src/hotkey_manager.py`,
`src/tray_icon.py`, `src/gui.py`), together with theorems settling the
specification claims about them.

Modelling conventions:
* pynput key identities become the inductive `RawKey`; a pynput `KeyCode`
  carrying a virtual-key code becomes `RawKey.keyCode vk`.
* A Python `set` of keys becomes a duplicate-free `List RawKey` with
  membership-guarded insertion (`pySetAdd`) and removal (`pySetDiscard`).
* Callback dictionaries become the list of registered action names; "the
  callback was invoked" is modelled by emitting the action name (for
  `HotkeyManager`) or counting invocations (for `PushToTalkManager`).
* Methods become functions from the receiver's state (plus arguments) to the
  updated state, paired with the emitted actions / invocation counts.
-/

/-- Raw key identities as reported by pynput: the named `keyboard.Key`
members the program mentions, plus `keyCode vk` for a pynput `KeyCode`
carrying a Windows virtual-key code (only a `KeyCode` has a `vk`
attribute). -/
inductive RawKey where
  | ctrl_l
  | ctrl_r
  | shift
  | shift_r
  | alt_l
  | alt_r
  | alt_gr
  | space
  | esc
  | f9
  | keyCode (vk : Nat)
deriving DecidableEq, BEq

/-- `hasattr(key, 'vk') and key.vk` — only a pynput `KeyCode` carries a
virtual-key code. -/
def RawKey.vkOf : RawKey → Option Nat
  | .keyCode v => some v
  | _ => none

/-- Python `set.add`: insert the element unless already present. -/
def pySetAdd (s : List RawKey) (k : RawKey) : List RawKey :=
  if s.contains k then s else s ++ [k]

/-- Python `set.discard`: remove the element if present, no error if absent. -/
def pySetDiscard (s : List RawKey) (k : RawKey) : List RawKey :=
  s.filter (fun x => x != k)

/-- State of `HotkeyManager` (hotkey_manager.py lines 18-22): the listener
handle (modelled as a presence flag), the set of currently pressed keys, the
registered callback names, and the running flag.  The `_hotkeys` table is a
fixed literal in `__init__` and is never mutated, so it is modelled as the
constant `HotkeyManager.hotkeys` below. -/
structure HotkeyManager where
  listener : Bool
  current_keys : List RawKey
  callbacks : List String
  running : Bool
deriving DecidableEq

/-- The fixed `_hotkeys` table (hotkey_manager.py lines 26-41), in the
insertion order of the Python dict literal, which is the iteration order of
the `for` loop in `_on_press`. -/
def HotkeyManager.hotkeys : List (List RawKey × String) :=
  [([RawKey.ctrl_l, RawKey.shift, RawKey.space], "toggle_recording"),
   ([RawKey.ctrl_r, RawKey.shift, RawKey.space], "toggle_recording"),
   ([RawKey.esc], "cancel_recording")]

/-- `HotkeyManager._normalize_key` (lines 75-83): the `key_map` dict sends
right-side variants to their left-side equivalents; `key_map.get(key, key)`
returns every other key unchanged. -/
def HotkeyManager.normalize_key : RawKey → RawKey
  | .ctrl_r => .ctrl_l
  | .alt_r => .alt_l
  | .shift_r => .shift
  | k => k

/-- `HotkeyManager._keys_match` (lines 85-93): frozenset subset test
`required <= current`.  The source's single-key branch and multi-key branch
are textually distinct but both return `required <= self._current_keys`; the
`if` is kept to mirror the source. -/
def HotkeyManager.keys_match (required : List RawKey) (current : List RawKey) : Bool :=
  if required.length = 1 then
    required.all (fun k => current.contains k)
  else
    required.all (fun k => current.contains k)

/-- The firing part of `HotkeyManager._on_press` (lines 59-68): iterate the
hotkey table; at the FIRST combo whose keys match, spawn its callback thread
if the action is registered, then `break` out of the loop.  The emitted list
is the actions fired by this one key-down. -/
def HotkeyManager.firedActions (callbacks : List String) (current : List RawKey) :
    List String :=
  match HotkeyManager.hotkeys.find? (fun p => HotkeyManager.keys_match p.1 current) with
  | some p => if p.2 ∈ callbacks then [p.2] else []
  | none => []

/-- `HotkeyManager._on_press` (lines 53-68): normalize, add to the pressed
set, then fire per `firedActions`.  Returns the new state and the list of
actions fired by this key-down. -/
def HotkeyManager.on_press (m : HotkeyManager) (k : RawKey) :
    HotkeyManager × List String :=
  let keys := pySetAdd m.current_keys (HotkeyManager.normalize_key k)
  ({ m with current_keys := keys }, HotkeyManager.firedActions m.callbacks keys)

/-- `HotkeyManager._on_release` (lines 70-73): normalize and discard from the
pressed set; nothing fires on release. -/
def HotkeyManager.on_release (m : HotkeyManager) (k : RawKey) : HotkeyManager :=
  { m with current_keys := pySetDiscard m.current_keys (HotkeyManager.normalize_key k) }

/-- A key event as delivered by the pynput listener. -/
inductive KeyEvent where
  | down (k : RawKey)
  | up (k : RawKey)
deriving DecidableEq

/-- One listener callback dispatch: `down` goes to `_on_press`, `up` to
`_on_release`. -/
def HotkeyManager.step (m : HotkeyManager) (e : KeyEvent) :
    HotkeyManager × List String :=
  match e with
  | .down k => m.on_press k
  | .up k => (m.on_release k, [])

/-- Process a sequence of key events in order, accumulating every action
fired along the way. -/
def HotkeyManager.process (m : HotkeyManager) :
    List KeyEvent → HotkeyManager × List String
  | [] => (m, [])
  | e :: es =>
    let r := m.step e
    let rest := r.1.process es
    (rest.1, r.2 ++ rest.2)

/-- `HotkeyManager.start` (lines 95-105): early-return when already running,
otherwise set the running flag and create and start a listener. -/
def HotkeyManager.start (m : HotkeyManager) : HotkeyManager :=
  if m.running then m
  else { m with running := true, listener := true }

/-- `HotkeyManager.stop` (lines 107-113): clear the running flag, stop and
drop the listener, and clear the pressed-key set. -/
def HotkeyManager.stop (m : HotkeyManager) : HotkeyManager :=
  { m with running := false, listener := false, current_keys := [] }

/-- `HotkeyManager.is_running` (lines 115-117). -/
def HotkeyManager.is_running (m : HotkeyManager) : Bool :=
  m.running

/-- A fresh `HotkeyManager` with both of the repository's callbacks
registered (as the `__main__` test at lines 207-217 does). -/
def hmBoth : HotkeyManager :=
  { listener := false
    current_keys := []
    callbacks := ["toggle_recording", "cancel_recording"]
    running := false }

/-- `hmBoth` after the key-downs ctrl-left, shift, space: all three members
of the toggle combo are held. -/
def hmHeld : HotkeyManager :=
  (hmBoth.process [KeyEvent.down RawKey.ctrl_l, KeyEvent.down RawKey.shift,
                   KeyEvent.down RawKey.space]).1

/-- State of `PushToTalkManager` (hotkey_manager.py lines 126-136): the
trigger key, the listener handle (presence flag), the edge-detection flag
`_is_pressed`, the running flag, and whether the `on_start` / `on_stop`
callbacks have been set (they start as `None`; `set_callbacks` sets both). -/
structure PushToTalkManager where
  trigger_key : RawKey
  listener : Bool
  has_on_start : Bool
  has_on_stop : Bool
  is_pressed : Bool
  running : Bool
deriving DecidableEq

/-- `PushToTalkManager._is_trigger_key` (lines 147-161): a direct match on
the configured trigger, and, when the trigger is right-alt, also `alt_gr`
(pynput exposes `Key.alt_gr`, so the source's `hasattr` guard passes) and
any `KeyCode` whose virtual-key code is 165 (VK_RMENU). -/
def PushToTalkManager.is_trigger_key (m : PushToTalkManager) (k : RawKey) : Bool :=
  if k == m.trigger_key then true
  else if m.trigger_key == RawKey.alt_r then
    (k == RawKey.alt_gr) || (k.vkOf == some 165)
  else false

/-- `PushToTalkManager._on_press` (lines 163-169): on a trigger key-down
with the edge flag clear, set the flag and (when the callback is set) spawn
`on_start`.  The second component counts `on_start` invocations caused by
this event. -/
def PushToTalkManager.on_press (m : PushToTalkManager) (k : RawKey) :
    PushToTalkManager × Nat :=
  if m.is_trigger_key k && !m.is_pressed then
    ({ m with is_pressed := true }, if m.has_on_start then 1 else 0)
  else (m, 0)

/-- `PushToTalkManager._on_release` (lines 171-177): on a trigger key-up
with the edge flag set, clear the flag and (when the callback is set) spawn
`on_stop`.  The second component counts `on_stop` invocations caused by this
event. -/
def PushToTalkManager.on_release (m : PushToTalkManager) (k : RawKey) :
    PushToTalkManager × Nat :=
  if m.is_trigger_key k && m.is_pressed then
    ({ m with is_pressed := false }, if m.has_on_stop then 1 else 0)
  else (m, 0)

/-- A key event delivered to the push-to-talk listener. -/
inductive PTTEvent where
  | press (k : RawKey)
  | release (k : RawKey)
deriving DecidableEq

/-- Process a sequence of press/release events, accumulating the number of
`on_start` and `on_stop` invocations (in that order). -/
def PushToTalkManager.process (m : PushToTalkManager) :
    List PTTEvent → PushToTalkManager × Nat × Nat
  | [] => (m, 0, 0)
  | e :: es =>
    match e with
    | .press k =>
      let r := m.on_press k
      let rest := r.1.process es
      (rest.1, r.2 + rest.2.1, rest.2.2)
    | .release k =>
      let r := m.on_release k
      let rest := r.1.process es
      (rest.1, rest.2.1, r.2 + rest.2.2)

/-- `PushToTalkManager.start` (lines 179-190): early-return when already
running, otherwise set the running flag and create and start a listener. -/
def PushToTalkManager.start (m : PushToTalkManager) : PushToTalkManager :=
  if m.running then m
  else { m with running := true, listener := true }

/-- A `PushToTalkManager` configured with right-alt as the trigger (as
`main.py` uses it) with both callbacks set and nothing pressed. -/
def pttAltR : PushToTalkManager :=
  { trigger_key := RawKey.alt_r
    listener := false
    has_on_start := true
    has_on_stop := true
    is_pressed := false
    running := false }

/-- The three recognized tray states (tray_icon.py lines 16-18). -/
def TrayIcon.recognizedStates : List String :=
  ["idle", "recording", "processing"]

/-- State of `TrayIcon` (tray_icon.py lines 20-31): the cached state string,
the key set of the `_icons` dict (built in `__init__` and never mutated),
whether the pystray icon object exists, and — when it does — which state's
image and status text it currently displays. -/
structure TrayIcon where
  state : String
  icons : List String
  hasIcon : Bool
  iconImage : Option String
  menuStatus : Option String
deriving DecidableEq

/-- `TrayIcon.__init__` (lines 20-31): cached state starts at `idle`, the
icon dict holds exactly the three recognized states, and no pystray icon
exists yet. -/
def TrayIcon.init : TrayIcon :=
  { state := "idle"
    icons := TrayIcon.recognizedStates
    hasIcon := false
    iconImage := none
    menuStatus := none }

/-- `TrayIcon.set_state` (lines 135-143): return immediately when the state
is not a key of `_icons`; otherwise update the cached state and, if the
pystray icon exists, swap its image and rebuild its menu. -/
def TrayIcon.set_state (t : TrayIcon) (state : String) : TrayIcon :=
  if t.icons.contains state then
    { t with
        state := state
        iconImage := if t.hasIcon then some state else t.iconImage
        menuStatus := if t.hasIcon then some state else t.menuStatus }
  else t

/-- Duration, in seconds, for which `threading.Event.wait` blocks, as a
function of when (if ever) the event is set and of the optional timeout:
with a timeout it returns as soon as the event is set or the timeout
elapses, whichever is first; with no timeout it blocks until the event is
set (`none` = blocks forever). -/
def eventWaitDuration (setAt : Option Nat) (timeout : Option Nat) : Option Nat :=
  match timeout with
  | some t =>
    some (match setAt with
          | some s => min s t
          | none => t)
  | none => setAt

/-- State of `StatusWindow` relevant to `start` (gui.py lines 481-488):
whether the background UI thread has already been created. -/
structure StatusWindow where
  threadStarted : Bool
deriving DecidableEq

/-- `StatusWindow.start` (gui.py lines 481-488): early-return when the
thread already exists (no wait at all); otherwise spawn the UI thread and
block on `self._ready.wait(timeout=5)`.  Returns how long the call blocks
waiting for readiness, given when (if ever) the UI thread sets `_ready`. -/
def StatusWindow.startWaitDuration (w : StatusWindow) (readySetAt : Option Nat) :
    Option Nat :=
  if w.threadStarted then some 0
  else eventWaitDuration readySetAt (some 5)

/-- `is_trigger_key` reads only the configured trigger key, so it is
unchanged by updates to the edge-detection flag. -/
theorem is_trigger_key_ignores_pressed (m : PushToTalkManager) (k : RawKey) (b : Bool) :
    ({ m with is_pressed := b } : PushToTalkManager).is_trigger_key k = m.is_trigger_key k :=
  rfl

/-- C3: push-to-talk trigger edges are idempotent: a press while the trigger
is already recorded as pressed invokes `on_start` zero times (in particular
two presses with no intervening release invoke `on_start` exactly once), and
a release while the trigger is not recorded as pressed invokes `on_stop`
zero times. -/
theorem ptt_edges_idempotent :
    (∀ (m : PushToTalkManager) (k : RawKey),
      m.is_pressed = true → (m.on_press k).2 = 0) ∧
    (∀ (m : PushToTalkManager) (k : RawKey),
      m.is_pressed = false → (m.on_release k).2 = 0) ∧
    (∀ (m : PushToTalkManager) (k : RawKey),
      m.is_pressed = false → m.is_trigger_key k = true → m.has_on_start = true →
        (m.process [PTTEvent.press k, PTTEvent.press k]).2.1 = 1) := by
  refine ⟨?_, ?_, ?_⟩
  · intro m k h
    simp [PushToTalkManager.on_press, h]
  · intro m k h
    simp [PushToTalkManager.on_release, h]
  · intro m k h ht hs
    simp [PushToTalkManager.process, PushToTalkManager.on_press, h, ht, hs,
      is_trigger_key_ignores_pressed]

/-- Witness for C3 at a concrete manager and key. -/
theorem ptt_edges_idempotent_witness :
    (({ pttAltR with is_pressed := true } : PushToTalkManager).on_press RawKey.alt_r).2 = 0 ∧
    (pttAltR.on_release RawKey.alt_r).2 = 0 ∧
    (pttAltR.process [PTTEvent.press RawKey.alt_r, PTTEvent.press RawKey.alt_r]).2.1 = 1 :=
  ⟨ptt_edges_idempotent.1 { pttAltR with is_pressed := true } RawKey.alt_r rfl,
   ptt_edges_idempotent.2.1 pttAltR RawKey.alt_r rfl,
   ptt_edges_idempotent.2.2 pttAltR RawKey.alt_r rfl (by decide) rfl⟩

/-- C5: the key normalizer is a pure total function mapping right control to
left control, right alt to left alt, right shift to the primary shift, and
every other key to itself. -/
theorem normalize_key_total_map :
    HotkeyManager.normalize_key RawKey.ctrl_r = RawKey.ctrl_l ∧
    HotkeyManager.normalize_key RawKey.alt_r = RawKey.alt_l ∧
    HotkeyManager.normalize_key RawKey.shift_r = RawKey.shift ∧
    ∀ k : RawKey, k ≠ RawKey.ctrl_r → k ≠ RawKey.alt_r → k ≠ RawKey.shift_r →
      HotkeyManager.normalize_key k = k := by
  refine ⟨rfl, rfl, rfl, ?_⟩
  intro k h1 h2 h3
  cases k <;> simp_all [HotkeyManager.normalize_key]

/-- Witness for C5 at concrete keys outside the remapped triple. -/
theorem normalize_key_total_map_witness :
    HotkeyManager.normalize_key RawKey.space = RawKey.space ∧
    HotkeyManager.normalize_key (RawKey.keyCode 165) = RawKey.keyCode 165 :=
  ⟨normalize_key_total_map.2.2.2 RawKey.space (by decide) (by decide) (by decide),
   normalize_key_total_map.2.2.2 (RawKey.keyCode 165) (by decide) (by decide) (by decide)⟩

/-- C6: with the repository's hotkey table (whose first combo is
ctrl-left + shift + space mapped to toggle) and the callbacks registered,
the sequence ctrl-down, shift-down, space-down fires the toggle action
exactly once — on the space-down, none earlier — and the subsequent
space-up, shift-up, ctrl-up leaves the pressed-key set empty. -/
theorem toggle_scenario :
    (hmBoth.process [KeyEvent.down RawKey.ctrl_l]).2 = [] ∧
    (hmBoth.process [KeyEvent.down RawKey.ctrl_l, KeyEvent.down RawKey.shift]).2 = [] ∧
    (hmBoth.process [KeyEvent.down RawKey.ctrl_l, KeyEvent.down RawKey.shift,
      KeyEvent.down RawKey.space]).2 = ["toggle_recording"] ∧
    (hmBoth.process [KeyEvent.down RawKey.ctrl_l, KeyEvent.down RawKey.shift,
      KeyEvent.down RawKey.space, KeyEvent.up RawKey.space, KeyEvent.up RawKey.shift,
      KeyEvent.up RawKey.ctrl_l]).2 = ["toggle_recording"] ∧
    (hmBoth.process [KeyEvent.down RawKey.ctrl_l, KeyEvent.down RawKey.shift,
      KeyEvent.down RawKey.space, KeyEvent.up RawKey.space, KeyEvent.up RawKey.shift,
      KeyEvent.up RawKey.ctrl_l]).1.current_keys = [] := by
  decide

/-- C7: `HotkeyManager.stop` leaves the pressed-key set empty and
`is_running` false, from every prior state. -/
theorem stop_resets (m : HotkeyManager) :
    m.stop.current_keys = [] ∧ m.stop.is_running = false :=
  ⟨rfl, rfl⟩

/-- Witness for C7 at a concrete manager. -/
theorem stop_resets_witness :
    hmHeld.stop.current_keys = [] ∧ hmHeld.stop.is_running = false :=
  stop_resets hmHeld

/-- C8: `StatusWindow.start` blocks waiting for UI-thread readiness for at
most 5 seconds, for every prior window state and every readiness time —
including a UI thread that never becomes ready — so it always proceeds and
never hangs permanently. -/
theorem start_wait_bounded (w : StatusWindow) (readySetAt : Option Nat) :
    ∃ d, w.startWaitDuration readySetAt = some d ∧ d ≤ 5 := by
  unfold StatusWindow.startWaitDuration eventWaitDuration
  by_cases hw : w.threadStarted
  · exact ⟨0, by simp [hw], Nat.zero_le 5⟩
  · cases readySetAt with
    | none => exact ⟨5, by simp [hw], Nat.le_refl 5⟩
    | some s => exact ⟨min s 5, by simp [hw], Nat.min_le_right s 5⟩

/-- Witness for C8 at a fresh window whose UI thread never becomes ready. -/
theorem start_wait_bounded_witness :
    ∃ d, StatusWindow.startWaitDuration { threadStarted := false } none = some d ∧ d ≤ 5 :=
  start_wait_bounded { threadStarted := false } none

/-- C9: `TrayIcon.set_state` is a no-op on every string outside the three
recognized states (any tray whose icon table is the one built by
`__init__`), it keeps the cached state inside the recognized set, and the
initial cached state is recognized — so the cached state is always one of
the three recognized states. -/
theorem set_state_rejects_unknown :
    (∀ (t : TrayIcon) (s : String), t.icons = TrayIcon.recognizedStates →
      s ∉ TrayIcon.recognizedStates → t.set_state s = t) ∧
    (∀ (t : TrayIcon) (s : String), t.icons = TrayIcon.recognizedStates →
      t.state ∈ TrayIcon.recognizedStates →
        (t.set_state s).state ∈ TrayIcon.recognizedStates) ∧
    TrayIcon.init.state ∈ TrayIcon.recognizedStates := by
  refine ⟨?_, ?_, by decide⟩
  · intro t s hicons hs
    unfold TrayIcon.set_state
    rw [hicons]
    simp [hs]
  · intro t s hicons hstate
    unfold TrayIcon.set_state
    rw [hicons]
    by_cases hmem : s ∈ TrayIcon.recognizedStates
    · simp [hmem]
    · simpa [hmem] using hstate

/-- Witness for C9: a concrete unknown state string is a no-op on the
freshly initialized tray, and the initial state is preserved. -/
theorem set_state_rejects_unknown_witness :
    TrayIcon.init.set_state "bogus" = TrayIcon.init ∧
    (TrayIcon.init.set_state "recording").state ∈ TrayIcon.recognizedStates :=
  ⟨set_state_rejects_unknown.1 TrayIcon.init "bogus" rfl (by decide),
   set_state_rejects_unknown.2.1 TrayIcon.init "recording" rfl (by decide)⟩

/-- C10: `start` is idempotent for both managers: when already running it
returns the state unchanged — no second listener is created and nothing
else changes. -/
theorem start_idempotent_when_running :
    (∀ m : HotkeyManager, m.running = true → m.start = m) ∧
    (∀ p : PushToTalkManager, p.running = true → p.start = p) := by
  constructor
  · intro m h
    simp [HotkeyManager.start, h]
  · intro p h
    simp [PushToTalkManager.start, h]

/-- Witness for C10 at concrete already-running managers. -/
theorem start_idempotent_when_running_witness :
    ({ hmBoth with running := true } : HotkeyManager).start
        = { hmBoth with running := true } ∧
    ({ pttAltR with running := true } : PushToTalkManager).start
        = { pttAltR with running := true } :=
  ⟨start_idempotent_when_running.1 { hmBoth with running := true } rfl,
   start_idempotent_when_running.2 { pttAltR with running := true } rfl⟩

/-- A key-down fires at most one action: `_on_press` breaks out of the
hotkey loop at the first matching combo. -/
theorem firedActions_length_le_one (cbs : List String) (keys : List RawKey) :
    (HotkeyManager.firedActions cbs keys).length ≤ 1 := by
  unfold HotkeyManager.firedActions
  cases h : HotkeyManager.hotkeys.find? (fun p => HotkeyManager.keys_match p.1 keys) with
  | none => simp
  | some p => by_cases hc : p.2 ∈ cbs <;> simp [hc]

/-- Every action fired by a key-down comes from a registered combo whose
keys all currently match and whose callback is registered. -/
theorem firedActions_sound (cbs : List String) (keys : List RawKey) (a : String) :
    a ∈ HotkeyManager.firedActions cbs keys →
    ∃ c, (c, a) ∈ HotkeyManager.hotkeys ∧
      HotkeyManager.keys_match c keys = true ∧ a ∈ cbs := by
  intro ha
  unfold HotkeyManager.firedActions at ha
  cases h : HotkeyManager.hotkeys.find? (fun p => HotkeyManager.keys_match p.1 keys) with
  | none => rw [h] at ha; simp at ha
  | some p =>
    rw [h] at ha
    by_cases hc : p.2 ∈ cbs
    · have haq : a = p.2 := by simpa [hc] using ha
      subst haq
      have hp : HotkeyManager.keys_match p.1 keys = true := by
        have hq := List.find?_some h
        simpa using hq
      exact ⟨p.1, List.mem_of_find?_eq_some h, hp, hc⟩
    · simp [hc] at ha

/-- C1 counterexample: with ctrl-left + shift + space held, the esc key-down
makes the pressed set a superset of both the toggle combo and the cancel
combo, and the cancel callback is registered, yet only the toggle action
fires — the cancel action does not. -/
theorem overlapping_combos_single_fire_cex :
    HotkeyManager.keys_match [RawKey.ctrl_l, RawKey.shift, RawKey.space]
      (hmHeld.on_press RawKey.esc).1.current_keys = true ∧
    HotkeyManager.keys_match [RawKey.esc]
      (hmHeld.on_press RawKey.esc).1.current_keys = true ∧
    "cancel_recording" ∈ hmHeld.callbacks ∧
    (hmHeld.on_press RawKey.esc).2 = ["toggle_recording"] ∧
    "cancel_recording" ∉ (hmHeld.on_press RawKey.esc).2 := by
  decide

/-- C1 amended: a key-down fires at most one action — the `for` loop in
`_on_press` breaks at the first matching combo in registration order, so
other combos that also match are suppressed; the action that does fire
always comes from a registered, currently matching combo. -/
theorem on_press_at_most_one_action (m : HotkeyManager) (k : RawKey) :
    (m.on_press k).2.length ≤ 1 ∧
    ∀ a ∈ (m.on_press k).2, ∃ c, (c, a) ∈ HotkeyManager.hotkeys ∧
      HotkeyManager.keys_match c (m.on_press k).1.current_keys = true ∧
      a ∈ m.callbacks :=
  ⟨firedActions_length_le_one m.callbacks
      (pySetAdd m.current_keys (HotkeyManager.normalize_key k)),
   fun a ha => firedActions_sound m.callbacks
      (pySetAdd m.current_keys (HotkeyManager.normalize_key k)) a ha⟩

/-- Witness for C1 at the esc key-down with all toggle keys held: the inner
hypothesis is discharged at the concrete fired action. -/
theorem on_press_at_most_one_action_witness :
    ∃ c, (c, "toggle_recording") ∈ HotkeyManager.hotkeys ∧
      HotkeyManager.keys_match c (hmHeld.on_press RawKey.esc).1.current_keys = true ∧
      "toggle_recording" ∈ hmHeld.callbacks :=
  (on_press_at_most_one_action hmHeld RawKey.esc).2 "toggle_recording" (by decide)

/-- C2 counterexample: with all members of the toggle combo already held, a
further space key-down (as OS auto-repeat delivers) fires the toggle action
again — the four-event sequence ctrl-down, shift-down, space-down,
space-down fires twice although the pressed set transitions from "not all
held" to "all held" only once. -/
theorem auto_repeat_refire_cex :
    HotkeyManager.keys_match [RawKey.ctrl_l, RawKey.shift, RawKey.space]
      hmHeld.current_keys = true ∧
    (hmHeld.on_press RawKey.space).2 = ["toggle_recording"] ∧
    (hmBoth.process [KeyEvent.down RawKey.ctrl_l, KeyEvent.down RawKey.shift,
      KeyEvent.down RawKey.space, KeyEvent.down RawKey.space]).2
        = ["toggle_recording", "toggle_recording"] := by
  decide

/-- C2 amended: `HotkeyManager._on_press` does no edge detection — it fires
the first matching registered combo's action on EVERY key-down whose
resulting pressed set matches, regardless of whether all combo members were
already held before the event, so an auto-repeated key-down of a held key
fires the action again. -/
theorem on_press_fires_without_edge_detection (m : HotkeyManager) (k : RawKey)
    (c : List RawKey) (a : String) :
    HotkeyManager.hotkeys.find? (fun p => HotkeyManager.keys_match p.1
      (pySetAdd m.current_keys (HotkeyManager.normalize_key k))) = some (c, a) →
    a ∈ m.callbacks →
    (m.on_press k).2 = [a] := by
  intro h hc
  show HotkeyManager.firedActions m.callbacks
    (pySetAdd m.current_keys (HotkeyManager.normalize_key k)) = [a]
  unfold HotkeyManager.firedActions
  rw [h]
  simp [hc]

/-- Witness for C2 at the auto-repeat space key-down while all toggle-combo
members are already held. -/
theorem on_press_fires_without_edge_detection_witness :
    (hmHeld.on_press RawKey.space).2 = ["toggle_recording"] :=
  on_press_fires_without_edge_detection hmHeld RawKey.space
    [RawKey.ctrl_l, RawKey.shift, RawKey.space] "toggle_recording"
    (by decide) (by decide)

/-- C4 counterexample: the Key Event Normalizer does not resolve all
observed right-alt raw codes to one CanonicalKey: `alt_gr` and the vk-165
`KeyCode` pass through unchanged while `alt_r` maps to `alt_l`, and the
matcher consequently records alt_r-then-alt_gr (no intervening release) as
two distinct held keys. -/
theorem right_alt_not_unified_cex :
    HotkeyManager.normalize_key RawKey.alt_gr ≠ HotkeyManager.normalize_key RawKey.alt_r ∧
    HotkeyManager.normalize_key (RawKey.keyCode 165)
      ≠ HotkeyManager.normalize_key RawKey.alt_r ∧
    ((hmBoth.on_press RawKey.alt_r).1.on_press RawKey.alt_gr).1.current_keys.length = 2 := by
  decide

/-- C4 amended: the unification of right-alt's raw codes lives in
`PushToTalkManager._is_trigger_key`, not in the normalizer: with right-alt
as the trigger it recognizes `alt_r`, `alt_gr`, and the vk-165 `KeyCode`
alike, so two such codes arriving in succession without an intervening
release start recording exactly once (the second press is a no-op). -/
theorem right_alt_unified_by_trigger_check :
    pttAltR.is_trigger_key RawKey.alt_r = true ∧
    pttAltR.is_trigger_key RawKey.alt_gr = true ∧
    pttAltR.is_trigger_key (RawKey.keyCode 165) = true ∧
    (pttAltR.process [PTTEvent.press RawKey.alt_r, PTTEvent.press RawKey.alt_gr]).2.1 = 1 ∧
    (pttAltR.process [PTTEvent.press RawKey.alt_gr,
      PTTEvent.press (RawKey.keyCode 165)]).2.1 = 1 := by
  decide
